import Mathlib

/-!
Verification of the WSO VM-fleet autoscaler daemon (`src/wso/server.py`,
`src/wso/management.py`) against its natural-language specification.

The Python source is shallowly embedded: the per-domain record and its
state machine, the healthcheck counter logic, the configure/destroy
lifecycle tasks, the reconciler wake body, the control-server message
handler, and the shutdown cleanup are translated into executable Lean
definitions.  Randomness (`random.randint`, `random.sample`, `uuid4`) is
externalized into explicit parameters; the cooperative asyncio scheduler
is modelled by applying each task's state mutation as a pure function on
the fleet state.
-/

namespace WSO

/-- `DomainState` from server.py: the per-VM state machine states. -/
inductive DomainState where
  | launching
  | healthcheckInitializing
  | healthy
  | unhealthy
  | terminating
deriving DecidableEq, Repr

/-- The configuration values (from config.py environment variables) that the
embedded fragments read. -/
structure Config where
  HEALTHCHECK_HEALTHY_THRESHOLD : Nat
  HEALTHCHECK_UNHEALTHY_THRESHOLD : Nat
  CONFIGURATION_RETRIES : Nat
  MIN_VMS : Nat
  MAX_VMS : Nat
deriving DecidableEq, Repr

/-- The `Domain` dataclass from server.py (one record per managed VM).
`started_at` timestamps are abstracted to `Option Nat`. -/
structure Domain where
  domain_name : String
  domain_id : String
  state : DomainState
  n_cpus : Nat
  memory_kib : Nat
  iso_path : String
  network_name : String
  bridge_name : String
  ip_address : String
  ip_subnet : String
  n_success_healthchecks : Nat
  n_failed_healthchecks : Nat
  started_at : Option Nat
deriving DecidableEq, Repr

/-- `Domain.__init__`: the `uuid4()[:8]` draw is externalized into the
`domain_id` argument; all other fields are set exactly as in the source. -/
def mkDomain (n_cpus : Nat) (memory_kib : Nat) (iso_path : String)
    (ip_address : String) (ip_subnet : String) (domain_id : String) : Domain :=
  { domain_id := domain_id
    domain_name := "wso-" ++ domain_id
    network_name := "wso-net"
    bridge_name := "wso-virbr"
    n_success_healthchecks := 0
    n_failed_healthchecks := 0
    started_at := none
    state := DomainState.launching
    n_cpus := n_cpus
    memory_kib := memory_kib
    iso_path := iso_path
    ip_address := ip_address
    ip_subnet := ip_subnet }

/-- `Server._generate_static_ip`: `random.randint(2, 254)` is externalized
into the argument `r`; the drawn suffix `2 + r % 253` ranges over exactly
the interval 2..254.  Note the function consults no existing-address set:
the source performs no collision check (its own comment reads
`# todo this is wrong`). -/
def generate_static_ip (subnet : String) (r : Nat) : String :=
  let ip_suffix := 2 + r % 253
  subnet ++ "." ++ toString ip_suffix

/-- The fleet: the Python dict
`self._state["hypervisors"][self.hypervisor_url]["domains"]`, an
insertion-ordered mapping from domain name to record, embedded as an
association list. -/
abbrev Fleet := List (String × Domain)

/-- Dictionary lookup `domains[name]`. -/
def fleetLookup : Fleet → String → Option Domain
  | [], _ => none
  | p :: ps, n => if p.1 = n then some p.2 else fleetLookup ps n

/-- Dictionary assignment `domains[name] = d`: replaces in place when the
key exists, appends otherwise (Python dict semantics). -/
def fleetInsert : Fleet → String → Domain → Fleet
  | [], n, d => [(n, d)]
  | p :: ps, n, d => if p.1 = n then (n, d) :: ps else p :: fleetInsert ps n d

/-- Dictionary deletion `del domains[name]`. -/
def fleetRemove (f : Fleet) (n : String) : Fleet :=
  f.filter (fun p => ¬ p.1 = n)

/- ### Python string primitives used by `Server.handle_msg` -/

/-- Helper for `str.split()` (whitespace splitting, empty tokens dropped). -/
def splitWsAux : List Char → List Char → List String
  | [], [] => []
  | [], acc => [String.mk acc.reverse]
  | c :: cs, acc =>
    if c.isWhitespace then
      match acc with
      | [] => splitWsAux cs []
      | _ => String.mk acc.reverse :: splitWsAux cs []
    else splitWsAux cs (c :: acc)

/-- Python `str.split()` with no separator: split on runs of whitespace,
discarding empty tokens. -/
def pySplit (s : String) : List String :=
  splitWsAux s.toList []

/-- Python `str.strip()`: remove leading and trailing whitespace. -/
def pyStrip (s : String) : String :=
  String.mk (((s.toList.dropWhile Char.isWhitespace).reverse.dropWhile
    Char.isWhitespace).reverse)

/-- Python `str.startswith(pre)`. -/
def pyStartsWith (s pre : String) : Bool :=
  pre.toList.isPrefixOf s.toList

/-- The fragment of the Unicode character database consulted by Python's
`str.isnumeric` and `int`.  `numeric c` is true iff `c` has a Unicode
Numeric_Type (Decimal, Digit or Numeric) — the per-character test behind
`str.isnumeric`; `decimalVal c = some v` iff `c` is a decimal digit
(general category Nd) of value `v` — exactly the characters `int` accepts,
each contributing its digit value.  The database is data external to the
program (like the random draws), so it is a parameter of the embedding.
For example `½` (U+00BD) is `numeric` with no `decimalVal`, while `٣`
(U+0663) is `numeric` with `decimalVal` 3. -/
structure UnicodeData where
  numeric : Char → Bool
  decimalVal : Char → Option Nat

/-- Python `str.isnumeric()` under character database `u`: nonempty and
every character numeric. -/
def pyIsNumeric (u : UnicodeData) (s : String) : Bool :=
  !s.toList.isEmpty && s.toList.all u.numeric

/-- Python `int()` under character database `u`, on the sign-free,
whitespace-free tokens produced by `str.split()`: succeeds iff every
character is a decimal digit, reading the digit values in base 10;
`none` models the `ValueError` raised on any other character (e.g. a
numeric-but-not-decimal character such as `½`). -/
def pyInt? (u : UnicodeData) (s : String) : Option Nat :=
  (s.toList.mapM u.decimalVal).map (fun ds => ds.foldl (fun n d => n * 10 + d) 0)

/-- The ASCII fragment of the character database: exactly the digits `0`-`9`
are numeric, each a decimal digit with its value.  Agrees with Python's
database on every ASCII character. -/
def asciiUnicodeData : UnicodeData where
  numeric := fun c => c.isDigit
  decimalVal := fun c =>
    if c.isDigit then some (c.toNat - Char.toNat '0') else none

/-- A database fragment extending the ASCII digits with the two non-ASCII
characters used in the examples: the vulgar fraction `½` (numeric, not a
decimal digit) and the Arabic-Indic digit `٣` (a decimal digit of value
3). -/
def demoUnicodeData : UnicodeData where
  numeric := fun c => c.isDigit || c = '½' || c = '٣'
  decimalVal := fun c =>
    if c.isDigit then some (c.toNat - Char.toNat '0')
    else if c = '٣' then some 3
    else none

/-- Reply status line written by the control server: `OK` or `ERROR`. -/
inductive Status where
  | ok
  | error
deriving DecidableEq, Repr

/-- Stands for `json.dumps(self._state, cls=EnhancedJSONEncoder)`.  No claim
inspects the serialized text, only that a body string is produced; the dump
is abbreviated to the list of domain names. -/
def stateDump (fleet : Fleet) : String :=
  String.intercalate "," (fleet.map (fun p => p.1))

/-- Result of one `Server.handle_msg` invocation: the reply written to the
socket (`none` when the handler raises before replying, as Python does on
`message.split()[1]` with a missing token), the desired-size variable, and
whether `self._state_changed.set()` was called, plus the fleet (returned so
frame properties can be stated). -/
structure HandleOut where
  reply : Option (Status × String)
  desired : Nat
  signal : Bool
  fleet : Fleet
deriving DecidableEq, Repr

/-- `Server.handle_msg` (server.py lines 113-144), as a function of the
character database, the received message, the current fleet and the current
`_desired_num_vms`.  The guard
`if not n_vms_str.isnumeric() or not (1 <= int(n_vms_str) <= 100)` is
transcribed in Python's evaluation order: when `isnumeric()` is false the
`or` short-circuits to the usage error without evaluating `int`; otherwise
`int(n_vms_str)` is evaluated and may raise `ValueError` (no reply is ever
written); otherwise the range check decides the branch.  (The source's
unknown-command body applies `repr` to the message — `{message!r}` — whose
quoting is elided here; no claim inspects that body text.) -/
def handle_msg (u : UnicodeData) (fleet : Fleet) (desired : Nat)
    (message : String) : HandleOut :=
  if pyStrip message = "state" then
    { reply := some (Status.ok, stateDump fleet)
      desired := desired, signal := false, fleet := fleet }
  else if pyStartsWith message "scale " then
    match (pySplit message)[1]? with
    | none =>
      -- `message.split()[1]` raises IndexError: no reply is ever written
      { reply := none, desired := desired, signal := false, fleet := fleet }
    | some n_vms_str =>
      if ¬ pyIsNumeric u n_vms_str then
        { reply := some (Status.error, "Expected integer <1,100>")
          desired := desired, signal := false, fleet := fleet }
      else
        match pyInt? u n_vms_str with
        | none =>
          -- `int(n_vms_str)` raises ValueError: no reply is ever written
          { reply := none, desired := desired, signal := false, fleet := fleet }
        | some n =>
          if ¬ (1 ≤ n ∧ n ≤ 100) then
            { reply := some (Status.error, "Expected integer <1,100>")
              desired := desired, signal := false, fleet := fleet }
          else
            { reply := some (Status.ok, "Scale to " ++ toString n)
              desired := n, signal := true, fleet := fleet }
  else
    { reply := some (Status.error, "Unknown command: " ++ message)
      desired := desired, signal := false, fleet := fleet }

/- ### Healthcheck task (server.py lines 270-302) -/

/-- One iteration of the `while True` loop body of `Server._healthcheck_task`
after the probe outcome is known: `healthy` is the probe result, `d` the
record re-fetched from the fleet.  The counter and state updates follow the
source verbatim: a success increments `n_success_healthchecks` while it is
below `HEALTHCHECK_HEALTHY_THRESHOLD` and, on reaching it, sets the state to
`healthy` and clears `n_failed_healthchecks`; a failure symmetrically drives
`n_failed_healthchecks` toward `HEALTHCHECK_UNHEALTHY_THRESHOLD` and, on
reaching it, sets `unhealthy` and clears `n_success_healthchecks`. -/
def healthcheckStep (cfg : Config) (healthy : Bool) (d : Domain) : Domain :=
  if healthy = true ∧
      d.n_success_healthchecks < cfg.HEALTHCHECK_HEALTHY_THRESHOLD then
    if cfg.HEALTHCHECK_HEALTHY_THRESHOLD ≤ d.n_success_healthchecks + 1 then
      { d with n_success_healthchecks := d.n_success_healthchecks + 1,
               state := DomainState.healthy, n_failed_healthchecks := 0 }
    else { d with n_success_healthchecks := d.n_success_healthchecks + 1 }
  else if healthy = false ∧
      d.n_failed_healthchecks < cfg.HEALTHCHECK_UNHEALTHY_THRESHOLD then
    if cfg.HEALTHCHECK_UNHEALTHY_THRESHOLD ≤ d.n_failed_healthchecks + 1 then
      { d with n_failed_healthchecks := d.n_failed_healthchecks + 1,
               state := DomainState.unhealthy, n_success_healthchecks := 0 }
    else { d with n_failed_healthchecks := d.n_failed_healthchecks + 1 }
  else d

/-- The healthcheck loop run over a finite trace of probe outcomes. -/
def healthcheckRun (cfg : Config) (probes : List Bool) (d : Domain) : Domain :=
  probes.foldl (fun d p => healthcheckStep cfg p d) d

/- ### Configure task (server.py lines 190-216) -/

/-- `Server._configure_domain_task`: up to `retries` configuration attempts
(attempt `i` succeeds iff `attemptOk i`); the loop breaks on the first
success, leaving the record untouched.  When every attempt fails, the
`for`-`else` branch sets the record's state to `unhealthy` — with no check
of the current state — writes it back to the fleet, and raises
`RuntimeError` (the returned Bool records whether it raised). -/
def configure_domain_task (retries : Nat) (attemptOk : Nat → Bool)
    (d : Domain) : Domain × Bool :=
  if (List.range retries).any attemptOk then (d, false)
  else ({ d with state := DomainState.unhealthy }, true)

/- ### Destroy task (server.py lines 323-337) -/

/-- `Server._destroy_domain_task`: sets the record's state to `terminating`
and writes it into the fleet, cancels its healthcheck task, then calls the
hypervisor destroy (`hypOk` is its outcome).  On success the record is
deleted from the fleet; on failure the exception is logged and re-raised
(the returned Bool) with the fleet left holding the `terminating` record. -/
def destroy_domain_task (hypOk : Bool) (d : Domain) (fleet : Fleet) :
    Fleet × Bool :=
  let d1 := { d with state := DomainState.terminating }
  let f1 := fleetInsert fleet d.domain_name d1
  if hypOk then (fleetRemove f1 d.domain_name, false)
  else (f1, true)

/- ### Reconciler wake (server.py lines 339-385) -/

/-- The three groups of tasks one iteration of
`Server.respond_to_state_change` spawns: destroy tasks for unhealthy
records, start tasks for freshly created records, destroy tasks for the
sampled excess healthy records. -/
structure ReconcileActions where
  destroyUnhealthy : List Domain
  created : List Domain
  destroyExcess : List Domain
deriving DecidableEq, Repr

/-- The running-states test `domain.state in (LAUNCHING, HEALTHY,
HEALTHCHECK_INITIALIZING)`. -/
def isRunningState (s : DomainState) : Bool :=
  s = DomainState.launching ∨ s = DomainState.healthy ∨
    s = DomainState.healthcheckInitializing

/-- The body of one iteration of `Server.respond_to_state_change` after
`self._state_changed.wait()` returns.  `iso` is `config.ISO_PATH`; the
random draws of `_generate_static_ip` and `uuid4` for the i-th fresh record
are externalized into `rng i` and `ids i`; `sample` stands for
`random.sample`.  Fresh records receive 1 CPU, 1 GiB of memory and a static
IP drawn by `generate_static_ip` on subnet `192.168.100`. -/
def respond_wake (iso : String) (desired : Nat) (fleet : Fleet)
    (rng : Nat → Nat) (ids : Nat → String)
    (sample : List Domain → Nat → List Domain) : ReconcileActions :=
  let domains := fleet.map (fun p => p.2)
  let unhealthy_domains :=
    domains.filter (fun d => d.state = DomainState.unhealthy)
  let running_domains := domains.filter (fun d => isRunningState d.state)
  let healthy_domains :=
    domains.filter (fun d => d.state = DomainState.healthy)
  if running_domains.length < desired then
    { destroyUnhealthy := unhealthy_domains
      created := (List.range (desired - running_domains.length)).map
        (fun i => mkDomain 1 (1024 * 1024) iso
          (generate_static_ip "192.168.100" (rng i)) "192.168.100" (ids i))
      destroyExcess := [] }
  else if desired < healthy_domains.length then
    { destroyUnhealthy := unhealthy_domains
      created := []
      destroyExcess := sample healthy_domains
        (healthy_domains.length - desired) }
  else
    { destroyUnhealthy := unhealthy_domains
      created := []
      destroyExcess := [] }

/- ### Shutdown cleanup (server.py lines 393-401) -/

/-- `Server._cleanup`: for every record whose state is neither `terminating`
nor `launching`, run a destroy task (hypervisor outcome `hypOk name`), and
destroy the shared NAT network (outcome `netOk`).  Returns the final fleet,
whether the network was destroyed, and whether any step raised. -/
def cleanup (hypOk : String → Bool) (netOk : Bool) (fleet : Fleet) :
    Fleet × Bool × Bool :=
  let targets := fleet.filter (fun p =>
    ¬ (p.2.state = DomainState.terminating ∨ p.2.state = DomainState.launching))
  let res := targets.foldl
    (fun (acc : Fleet × Bool) p =>
      let r := destroy_domain_task (hypOk p.1) p.2 acc.1
      (r.1, acc.2 || r.2))
    (fleet, false)
  (res.1, netOk, res.2 || !netOk)

/- ### Server construction (server.py lines 87-111) -/

/-- The mutable server state the claims range over: the desired-size
variable, the change signal, and the domains dict of the single hypervisor
entry of `self._state`. -/
structure ServerModel where
  desired : Nat
  signalSet : Bool
  domains : Fleet
deriving DecidableEq, Repr

/-- `Server.__init__` together with the class attributes: the class sets
`_desired_num_vms = 2` (a literal, reading neither `MIN_VMS` nor
`MAX_VMS` — the `cfg` argument is deliberately unused, mirroring that
independence), `__init__` installs an empty domains dict for
`hypervisor_url` and calls `self._state_changed.set()`. -/
def initServer (cfg : Config) (hypervisor_url : String) : ServerModel :=
  { desired := 2
    signalSet := true
    domains := [] }

/- ### Concrete fixtures used by counterexamples and witnesses -/

/-- The default thresholds from config.py: healthy threshold 3, unhealthy
threshold 3, 5 configuration retries, `MIN_VMS = 1`, `MAX_VMS = 100`. -/
def cfgDefault : Config :=
  { HEALTHCHECK_HEALTHY_THRESHOLD := 3
    HEALTHCHECK_UNHEALTHY_THRESHOLD := 3
    CONFIGURATION_RETRIES := 5
    MIN_VMS := 1
    MAX_VMS := 100 }

/-- A record that has stabilized in `Healthy`: its success counter sits at
the healthy threshold and its failure counter is 0, exactly the values the
healthcheck task leaves after promotion. -/
def dHealthy : Domain :=
  { mkDomain 1 (1024 * 1024) "img.iso" "192.168.100.2" "192.168.100" "aaaaaaaa"
      with state := DomainState.healthy, n_success_healthchecks := 3 }

/-- A record that has just crossed into `Unhealthy`: failure counter at the
unhealthy threshold, success counter cleared. -/
def dUnhealthy : Domain :=
  { mkDomain 1 (1024 * 1024) "img.iso" "192.168.100.3" "192.168.100" "bbbbbbbb"
      with state := DomainState.unhealthy, n_failed_healthchecks := 3 }

/-- A record whose destroy task has marked it `Terminating`. -/
def dTerminating : Domain :=
  { mkDomain 1 (1024 * 1024) "img.iso" "192.168.100.4" "192.168.100" "cccccccc"
      with state := DomainState.terminating }

/-- A record still in `Launching` (the state `mkDomain` assigns). -/
def dLaunching : Domain :=
  mkDomain 1 (1024 * 1024) "img.iso" "192.168.100.5" "192.168.100" "dddddddd"

/-- A second stabilized `Healthy` record, distinct from `dHealthy`. -/
def dHealthy2 : Domain :=
  { mkDomain 1 (1024 * 1024) "img.iso" "192.168.100.6" "192.168.100" "eeeeeeee"
      with state := DomainState.healthy, n_success_healthchecks := 3 }

/-- A two-record fleet in which both records are `Healthy`. -/
def fleetTwoHealthy : Fleet :=
  [("wso-aaaaaaaa", dHealthy), ("wso-eeeeeeee", dHealthy2)]

/- ### Association-list lemmas for the fleet dictionary -/

theorem fleetLookup_insert_self (f : Fleet) (n : String) (d : Domain) :
    fleetLookup (fleetInsert f n d) n = some d := by
  induction f with
  | nil => simp [fleetInsert, fleetLookup]
  | cons p ps ih =>
    by_cases h : p.1 = n
    · simp [fleetInsert, fleetLookup, h]
    · simp [fleetInsert, fleetLookup, h, ih]

theorem fleetLookup_insert_ne (f : Fleet) (n m : String) (d : Domain)
    (h : ¬ m = n) : fleetLookup (fleetInsert f n d) m = fleetLookup f m := by
  have h' : ¬ n = m := fun he => h he.symm
  induction f with
  | nil => simp [fleetInsert, fleetLookup, h']
  | cons p ps ih =>
    by_cases hp : p.1 = n
    · simp [fleetInsert, fleetLookup, hp, h']
    · by_cases hm : p.1 = m
      · simp [fleetInsert, fleetLookup, hp, hm, h]
      · simp [fleetInsert, fleetLookup, hp, hm, ih]

theorem fleetRemove_insert (f : Fleet) (n : String) (d : Domain) :
    fleetRemove (fleetInsert f n d) n = fleetRemove f n := by
  induction f with
  | nil => simp [fleetInsert, fleetRemove]
  | cons p ps ih =>
    by_cases h : p.1 = n
    · simp [fleetInsert, fleetRemove, h]
    · simp only [fleetInsert, fleetRemove, decide_not] at ih ⊢
      simp [h, ih]

/- ### Claim C1 -/

/-- Claim C1 (refuted; the code is the bug): the claim says fresh static IPs
are drawn "with a collision check against the current `ip_address` set —
retry draw on conflict", so that `ip_address` values stay pairwise
distinct.  `Server._generate_static_ip` performs no collision check at all
(its own comment reads `# todo this is wrong`): when the reconciler creates
two fresh records on an empty fleet and both `random.randint(2, 254)` draws
return suffix 2, the two distinct records `wso-0` and `wso-1` are created
with the identical address `192.168.100.2`. -/
theorem C1_random_ip_collision :
    ((respond_wake "img.iso" 2 [] (fun _ => 0) (fun i => toString i)
        (fun l n => l.take n)).created.map (fun d => d.domain_name))
      = ["wso-0", "wso-1"] ∧
    ((respond_wake "img.iso" 2 [] (fun _ => 0) (fun i => toString i)
        (fun l n => l.take n)).created.map (fun d => d.ip_address))
      = ["192.168.100.2", "192.168.100.2"] := by
  decide

/- ### Claim C2 -/

/-- Claim C2 counterexample: with the default thresholds (3/3), a record
that has stabilized in `Healthy` is demoted to `Unhealthy` by the probe
trace fail, success, fail, fail — which contains no 3 consecutive failures
and in which the intervening success does **not** cancel the progress of
the preceding failure: the failure counter only accumulates, because a
success while `Healthy` is a no-op (the success counter is saturated) and
`n_failed_healthchecks` is reset only on crossing the healthy threshold. -/
theorem C2_counterexample :
    dHealthy.state = DomainState.healthy ∧
    (healthcheckRun cfgDefault [false, true, false, false] dHealthy).state
      = DomainState.unhealthy := by
  decide

/-- Claim C2 amended: for a record in `Healthy` whose success counter is
saturated at the healthy threshold, (1) a successful probe is a no-op (in
particular it does not reset the failure counter), (2) a failed probe
demotes the record to `Unhealthy` exactly when the accumulated
`n_failed_healthchecks` reaches `HEALTHCHECK_UNHEALTHY_THRESHOLD` — the
failures need not be consecutive — and (3) a single failed probe from a
zero failure counter does not demote when the threshold is at least 2. -/
theorem C2_amended (cfg : Config) (d : Domain)
    (hd : d.state = DomainState.healthy)
    (hsat : cfg.HEALTHCHECK_HEALTHY_THRESHOLD ≤ d.n_success_healthchecks) :
    healthcheckStep cfg true d = d ∧
    ((healthcheckStep cfg false d).state = DomainState.unhealthy ↔
      d.n_failed_healthchecks + 1 = cfg.HEALTHCHECK_UNHEALTHY_THRESHOLD) ∧
    (d.n_failed_healthchecks = 0 → 2 ≤ cfg.HEALTHCHECK_UNHEALTHY_THRESHOLD →
      (healthcheckStep cfg false d).state = DomainState.healthy ∧
      (healthcheckStep cfg false d).n_failed_healthchecks = 1) := by
  refine ⟨?_, ?_, ?_⟩
  · simp [healthcheckStep, Nat.not_lt.mpr hsat]
  · unfold healthcheckStep
    split_ifs with h1 h2 h3 <;> simp_all <;> omega
  · intro h0 h2
    unfold healthcheckStep
    split_ifs with ha hb hc <;> simp_all <;> omega

/-- Witness for `C2_amended` at the default config and a stabilized healthy
record. -/
theorem C2_amended_witness :
    healthcheckStep cfgDefault true dHealthy = dHealthy ∧
    (healthcheckStep cfgDefault false dHealthy).state = DomainState.healthy :=
  ⟨(C2_amended cfgDefault dHealthy rfl (by decide)).1,
    ((C2_amended cfgDefault dHealthy rfl (by decide)).2.2 rfl (by decide)).1⟩

/- ### Claim C3 -/

/-- Claim C3 (refuted; the code is the bug): the claim says no operation —
configuration-retry exhaustion included — ever moves a `Terminating` record
to another state.  `Server._configure_domain_task` checks no state before
its `for`-`else` branch: when all `CONFIGURATION_RETRIES` attempts fail for
a record that is already `Terminating` (e.g. because its destroy attempt
failed and left it in the fleet), the task sets the record to `Unhealthy`,
writes it back, and raises. -/
theorem C3_terminating_escapes_via_configure :
    dTerminating.state = DomainState.terminating ∧
    (configure_domain_task cfgDefault.CONFIGURATION_RETRIES (fun _ => false)
        dTerminating).1.state = DomainState.unhealthy ∧
    (configure_domain_task cfgDefault.CONFIGURATION_RETRIES (fun _ => false)
        dTerminating).2 = true := by
  decide

/- ### Claim C4 -/

/-- Claim C4 counterexample: the message `"scale "` (the `scale` keyword
with a missing argument) starts with `"scale "` so it reaches
`message.split()[1]`, which raises `IndexError`; the handler writes neither
an `OK` nor an `ERROR` status line, refuting "for every received request,
the control-server handler replies with a status line OK or ERROR". -/
theorem C4_counterexample :
    pyStartsWith "scale " "scale " = true ∧
    (handle_msg asciiUnicodeData [] 2 "scale ").reply = none := by
  decide

/-- Claim C4 amended: the handler fails to reply exactly on the two crash
paths of the scale branch — a message starting with `scale ` whose split
has no second token (`message.split()[1]` raises `IndexError`), or whose
second token passes `str.isnumeric()` but is rejected by `int()` (a
numeric-but-not-decimal-digit token such as `½` raises `ValueError`).
Every other request is answered with a status line, for any character
database: `state` replies `OK` with the state dump; `scale` with a numeric
token that `int()` parses to `n` in `[1, 100]` (non-ASCII decimal digits
such as `٣` included) replies `OK`, sets the desired size to `n` and sets
the change signal; a scale token that is not numeric, or whose parsed
value is out of range, replies `ERROR` with the usage message and leaves
the desired size unchanged; any other command replies `ERROR`. -/
theorem C4_amended (u : UnicodeData) (fleet : Fleet) (desired : Nat) (msg : String) :
    ((handle_msg u fleet desired msg).reply = none ↔
      (¬ pyStrip msg = "state" ∧ pyStartsWith msg "scale " = true ∧
        ((pySplit msg)[1]? = none ∨
          ∃ t, (pySplit msg)[1]? = some t ∧ pyIsNumeric u t = true ∧
            pyInt? u t = none))) ∧
    (pyStrip msg = "state" →
      (handle_msg u fleet desired msg).reply = some (Status.ok, stateDump fleet) ∧
      (handle_msg u fleet desired msg).desired = desired) ∧
    (∀ t, ¬ pyStrip msg = "state" → pyStartsWith msg "scale " = true →
      (pySplit msg)[1]? = some t →
      ((¬ pyIsNumeric u t = true →
          (handle_msg u fleet desired msg).reply
            = some (Status.error, "Expected integer <1,100>") ∧
          (handle_msg u fleet desired msg).desired = desired) ∧
       (∀ n, pyIsNumeric u t = true → pyInt? u t = some n →
          ((1 ≤ n ∧ n ≤ 100 →
             (handle_msg u fleet desired msg).reply
               = some (Status.ok, "Scale to " ++ toString n) ∧
             (handle_msg u fleet desired msg).desired = n ∧
             (handle_msg u fleet desired msg).signal = true) ∧
           (¬ (1 ≤ n ∧ n ≤ 100) →
             (handle_msg u fleet desired msg).reply
               = some (Status.error, "Expected integer <1,100>") ∧
             (handle_msg u fleet desired msg).desired = desired))))) ∧
    (¬ pyStrip msg = "state" → ¬ pyStartsWith msg "scale " = true →
      (handle_msg u fleet desired msg).reply.map Prod.fst = some Status.error ∧
      (handle_msg u fleet desired msg).desired = desired) := by
  by_cases h1 : pyStrip msg = "state"
  · have heq : handle_msg u fleet desired msg
        = { reply := some (Status.ok, stateDump fleet), desired := desired,
            signal := false, fleet := fleet } := by
      simp [handle_msg, h1]
    rw [heq]
    refine ⟨?_, fun _ => ⟨rfl, rfl⟩, ?_, ?_⟩
    · simp [h1]
    · intro t hns _ _; exact absurd h1 hns
    · intro hns _; exact absurd h1 hns
  · by_cases h2 : pyStartsWith msg "scale " = true
    · cases hget : (pySplit msg)[1]? with
      | none =>
        have heq : handle_msg u fleet desired msg
            = { reply := none, desired := desired, signal := false,
                fleet := fleet } := by
          simp [handle_msg, h1, h2, hget]
        rw [heq]
        refine ⟨⟨fun _ => ⟨h1, h2, Or.inl rfl⟩, fun _ => rfl⟩, ?_, ?_, ?_⟩
        · intro hc; exact absurd hc h1
        · intro t _ _ ht2
          exact Option.noConfusion ht2
        · intro _ hs; exact absurd h2 hs
      | some t =>
        by_cases h3 : pyIsNumeric u t = true
        · cases hint : pyInt? u t with
          | none =>
            have heq : handle_msg u fleet desired msg
                = { reply := none, desired := desired, signal := false,
                    fleet := fleet } := by
              simp [handle_msg, h1, h2, hget, h3, hint]
            rw [heq]
            refine ⟨⟨fun _ => ⟨h1, h2, Or.inr ⟨t, rfl, h3, hint⟩⟩,
              fun _ => rfl⟩, ?_, ?_, ?_⟩
            · intro hc; exact absurd hc h1
            · intro t2 _ _ ht2
              cases ht2
              refine ⟨fun hn3 => absurd h3 hn3, ?_⟩
              intro n _ hn
              rw [hint] at hn
              exact Option.noConfusion hn
            · intro _ hs; exact absurd h2 hs
          | some n =>
            by_cases h4 : 1 ≤ n ∧ n ≤ 100
            · have heq : handle_msg u fleet desired msg
                  = { reply := some (Status.ok, "Scale to " ++ toString n),
                      desired := n, signal := true, fleet := fleet } := by
                simp [handle_msg, h1, h2, hget, h3, hint, h4]
              rw [heq]
              refine ⟨?_, ?_, ?_, ?_⟩
              · constructor
                · intro hco; exact Option.noConfusion hco
                · rintro ⟨-, -, hcr | ⟨t', ht', -, hint'⟩⟩
                  · exact Option.noConfusion hcr
                  · cases ht'
                    rw [hint] at hint'
                    exact Option.noConfusion hint'
              · intro hc; exact absurd hc h1
              · intro t2 _ _ ht2
                cases ht2
                refine ⟨fun hn3 => absurd h3 hn3, ?_⟩
                intro n2 _ hn2
                rw [hint] at hn2
                cases hn2
                exact ⟨fun _ => ⟨rfl, rfl, rfl⟩, fun hb => absurd h4 hb⟩
              · intro _ hs; exact absurd h2 hs
            · have heq : handle_msg u fleet desired msg
                  = { reply := some (Status.error, "Expected integer <1,100>"),
                      desired := desired, signal := false, fleet := fleet } := by
                simp [handle_msg, h1, h2, hget, h3, hint, h4]
              rw [heq]
              refine ⟨?_, ?_, ?_, ?_⟩
              · constructor
                · intro hco; exact Option.noConfusion hco
                · rintro ⟨-, -, hcr | ⟨t', ht', -, hint'⟩⟩
                  · exact Option.noConfusion hcr
                  · cases ht'
                    rw [hint] at hint'
                    exact Option.noConfusion hint'
              · intro hc; exact absurd hc h1
              · intro t2 _ _ ht2
                cases ht2
                refine ⟨fun hn3 => absurd h3 hn3, ?_⟩
                intro n2 _ hn2
                rw [hint] at hn2
                cases hn2
                exact ⟨fun hr => absurd hr h4, fun _ => ⟨rfl, rfl⟩⟩
              · intro _ hs; exact absurd h2 hs
        · have heq : handle_msg u fleet desired msg
              = { reply := some (Status.error, "Expected integer <1,100>"),
                  desired := desired, signal := false, fleet := fleet } := by
            simp [handle_msg, h1, h2, hget, h3]
          rw [heq]
          refine ⟨?_, ?_, ?_, ?_⟩
          · constructor
            · intro hco; exact Option.noConfusion hco
            · rintro ⟨-, -, hcr | ⟨t', ht', hnum', -⟩⟩
              · exact Option.noConfusion hcr
              · cases ht'
                exact absurd hnum' h3
          · intro hc; exact absurd hc h1
          · intro t2 _ _ ht2
            cases ht2
            refine ⟨fun _ => ⟨rfl, rfl⟩, ?_⟩
            intro n2 hnum2 _
            exact absurd hnum2 h3
          · intro _ hs; exact absurd h2 hs
    · have heq : handle_msg u fleet desired msg
          = { reply := some (Status.error, "Unknown command: " ++ msg),
              desired := desired, signal := false, fleet := fleet } := by
        simp [handle_msg, h1, h2]
      rw [heq]
      refine ⟨?_, ?_, ?_, ?_⟩
      · simp [h2]
      · intro hc; exact absurd hc h1
      · intro t2 _ hs _; exact absurd hs h2
      · intro _ _; exact ⟨rfl, rfl⟩

/-- Witness for `C4_amended` on the request `scale 5` under the ASCII
fragment of the character database. -/
theorem C4_amended_witness :
    (handle_msg asciiUnicodeData [] 2 "scale 5").reply
      = some (Status.ok, "Scale to " ++ toString 5) ∧
    (handle_msg asciiUnicodeData [] 2 "scale 5").desired = 5 ∧
    (handle_msg asciiUnicodeData [] 2 "scale 5").signal = true :=
  (((C4_amended asciiUnicodeData [] 2 "scale 5").2.2.1 "5" (by decide)
      (by decide) (by decide)).2 5 (by decide) (by decide)).1 (by decide)

/-- The embedding reproduces the source's Unicode behaviors under the
demo database fragment: `scale ½` passes `isnumeric`, then `int()` raises
and the handler never replies; `scale ٣` parses to 3, replies `OK` and
sets the desired size to 3. -/
theorem handle_msg_unicode_paths :
    (handle_msg demoUnicodeData [] 2 "scale ½").reply = none ∧
    (handle_msg demoUnicodeData [] 2 "scale ٣").reply
      = some (Status.ok, "Scale to 3") ∧
    (handle_msg demoUnicodeData [] 2 "scale ٣").desired = 3 := by
  decide

/- ### Claim C5 -/

/-- `random.sample(l, n)` contract satisfied by the deterministic sampler
`List.take`: for `n ≤ l.length` it returns `n` elements, all drawn from
`l`. -/
theorem sampleTake_spec : ∀ (l : List Domain) (n : Nat), n ≤ l.length →
    ((l.take n).length = n ∧ ∀ d, d ∈ l.take n → d ∈ l) := by
  intro l n h
  constructor
  · simp [List.length_take, Nat.min_eq_left h]
  · intro d hd
    exact List.take_subset n l hd

/-- Claim C5: on a reconciliation wake, with `running` = records in
`{Launching, Healthy, HealthcheckInitializing}` and `healthy` = records in
`Healthy`: if `len(running) < desired` then exactly
`desired − len(running)` fresh records are created and no excess-destroy
workers are spawned; otherwise, if `len(healthy) > desired`, exactly
`len(healthy) − desired` destroy workers are spawned on records drawn from
`healthy` (for any `sample` obeying the `random.sample` contract) and
nothing is created; and in every wake at least one of the two branches is
inert. -/
theorem C5_reconcile (iso : String) (desired : Nat) (fleet : Fleet)
    (rng : Nat → Nat) (ids : Nat → String)
    (sample : List Domain → Nat → List Domain)
    (hs : ∀ l n, n ≤ l.length →
      (sample l n).length = n ∧ ∀ d, d ∈ sample l n → d ∈ l) :
    (((fleet.map (fun p => p.2)).filter
        (fun d => isRunningState d.state)).length < desired →
      (respond_wake iso desired fleet rng ids sample).created.length
          = desired - ((fleet.map (fun p => p.2)).filter
            (fun d => isRunningState d.state)).length ∧
      (respond_wake iso desired fleet rng ids sample).destroyExcess = []) ∧
    (¬ ((fleet.map (fun p => p.2)).filter
        (fun d => isRunningState d.state)).length < desired →
      desired < ((fleet.map (fun p => p.2)).filter
        (fun d => d.state = DomainState.healthy)).length →
      (respond_wake iso desired fleet rng ids sample).destroyExcess.length
          = ((fleet.map (fun p => p.2)).filter
            (fun d => d.state = DomainState.healthy)).length - desired ∧
      (∀ d, d ∈ (respond_wake iso desired fleet rng ids sample).destroyExcess →
        d ∈ (fleet.map (fun p => p.2)).filter
          (fun d => d.state = DomainState.healthy)) ∧
      (respond_wake iso desired fleet rng ids sample).created = []) ∧
    ((respond_wake iso desired fleet rng ids sample).created = [] ∨
      (respond_wake iso desired fleet rng ids sample).destroyExcess = []) := by
  refine ⟨?_, ?_, ?_⟩
  · intro hr
    simp [respond_wake, hr]
  · intro hr hh
    have hle : ((fleet.map (fun p => p.2)).filter
        (fun d => d.state = DomainState.healthy)).length - desired
        ≤ ((fleet.map (fun p => p.2)).filter
          (fun d => d.state = DomainState.healthy)).length := by omega
    have h := hs ((fleet.map (fun p => p.2)).filter
        (fun d => d.state = DomainState.healthy))
      (((fleet.map (fun p => p.2)).filter
        (fun d => d.state = DomainState.healthy)).length - desired) hle
    have hre : respond_wake iso desired fleet rng ids sample
        = { destroyUnhealthy := (fleet.map (fun p => p.2)).filter
              (fun d => d.state = DomainState.unhealthy)
            created := []
            destroyExcess := sample
              ((fleet.map (fun p => p.2)).filter
                (fun d => d.state = DomainState.healthy))
              (((fleet.map (fun p => p.2)).filter
                (fun d => d.state = DomainState.healthy)).length - desired) } := by
      simp [respond_wake, hr, hh]
    rw [hre]
    exact ⟨h.1, h.2, rfl⟩
  · by_cases hr : ((fleet.map (fun p => p.2)).filter
        (fun d => isRunningState d.state)).length < desired
    · right
      simp [respond_wake, hr]
    · left
      by_cases hh : desired < ((fleet.map (fun p => p.2)).filter
          (fun d => d.state = DomainState.healthy)).length
      · simp [respond_wake, hr, hh]
      · simp [respond_wake, hr, hh]

/-- Witness for `C5_reconcile`: scaling a two-healthy-record fleet down to
1 destroys exactly one healthy record and creates nothing. -/
theorem C5_reconcile_witness :
    (respond_wake "img.iso" 1 fleetTwoHealthy (fun _ => 0)
        (fun i => toString i) (fun l n => l.take n)).destroyExcess.length = 1 ∧
    (respond_wake "img.iso" 1 fleetTwoHealthy (fun _ => 0)
        (fun i => toString i) (fun l n => l.take n)).created = [] := by
  have h := (C5_reconcile "img.iso" 1 fleetTwoHealthy (fun _ => 0)
    (fun i => toString i) (fun l n => l.take n) sampleTake_spec).2.1
    (by decide) (by decide)
  exact ⟨by simpa using h.1, h.2.2⟩

/- ### Claim C6 -/

/-- Claim C6 counterexample: a fleet holding one record in `Launching` at
the moment shutdown begins survives a fully successful cleanup (no step
raised, network destroyed) with that record still in the fleet — the claim
"the fleet contains no records ... including states containing records in
Launching" is false: `_cleanup` deliberately skips `Launching` (and
`Terminating`) records. -/
theorem C6_counterexample :
    (cleanup (fun _ => true) true [("wso-dddddddd", dLaunching)]).2.2 = false ∧
    (cleanup (fun _ => true) true [("wso-dddddddd", dLaunching)]).2.1 = true ∧
    ¬ (cleanup (fun _ => true) true [("wso-dddddddd", dLaunching)]).1 = [] := by
  decide

/-- A successful hypervisor destroy turns the destroy task into removal of
the record's key. -/
theorem destroy_domain_task_ok (d : Domain) (f : Fleet) :
    destroy_domain_task true d f = (fleetRemove f d.domain_name, false) := by
  simp [destroy_domain_task, fleetRemove_insert]

/-- When every hypervisor destroy succeeds, the cleanup fold is the fold of
key removals and raises nothing. -/
theorem cleanup_foldl_ok : ∀ (ts : List (String × Domain)) (f : Fleet),
    ts.foldl (fun (acc : Fleet × Bool) p =>
      let r := destroy_domain_task ((fun _ => true) p.1) p.2 acc.1
      (r.1, acc.2 || r.2)) (f, false)
    = (ts.foldl (fun g p => fleetRemove g p.2.domain_name) f, false) := by
  intro ts
  induction ts with
  | nil => intro f; rfl
  | cons t ts ih =>
    intro f
    rw [List.foldl_cons, List.foldl_cons]
    refine Eq.trans ?_ (ih (fleetRemove f t.2.domain_name))
    congr 1
    simp [destroy_domain_task_ok]

/-- Folding key removals over a list of records filters out exactly the
entries whose key is one of the removed names. -/
theorem foldl_fleetRemove_eq_filter : ∀ (ts : List (String × Domain)) (f : Fleet),
    ts.foldl (fun g p => fleetRemove g p.2.domain_name) f
    = f.filter (fun q => ¬ q.1 ∈ ts.map (fun p => p.2.domain_name)) := by
  intro ts
  induction ts with
  | nil => intro f; simp
  | cons t ts ih =>
    intro f
    rw [List.foldl_cons, ih]
    simp only [fleetRemove, List.filter_filter]
    apply List.filter_congr
    intro a _
    by_cases h : a.1 = t.2.domain_name <;>
      simp [h, List.mem_cons, not_or]

/-- Claim C6 amended: when the shutdown cleanup completes with success
(every hypervisor destroy succeeded and the NAT network was destroyed, so
nothing raised), the remaining fleet is exactly the records that were in
`Terminating` or `Launching` when cleanup began — every other record has
been destroyed and removed — for any well-keyed fleet (each entry keyed by
its record's name, keys distinct).  A fleet is empty after cleanup only if
it held no `Launching` or `Terminating` records at shutdown. -/
theorem C6_amended (fleet : Fleet)
    (hwf : ∀ p, p ∈ fleet → p.2.domain_name = p.1)
    (hnd : (fleet.map (fun p => p.1)).Nodup) :
    (cleanup (fun _ => true) true fleet).1
      = fleet.filter (fun p => p.2.state = DomainState.terminating ∨
          p.2.state = DomainState.launching) ∧
    (cleanup (fun _ => true) true fleet).2.1 = true ∧
    (cleanup (fun _ => true) true fleet).2.2 = false := by
  have hkey : cleanup (fun _ => true) true fleet
      = (fleet.filter (fun q => ¬ q.1 ∈ (fleet.filter (fun p =>
          ¬ (p.2.state = DomainState.terminating ∨
            p.2.state = DomainState.launching))).map (fun p => p.2.domain_name)),
          true, false) := by
    simp only [cleanup]
    rw [cleanup_foldl_ok, foldl_fleetRemove_eq_filter]
    rfl
  rw [hkey]
  refine ⟨?_, rfl, rfl⟩
  have hmap : (fleet.filter (fun p =>
        ¬ (p.2.state = DomainState.terminating ∨
          p.2.state = DomainState.launching))).map (fun p => p.2.domain_name)
      = (fleet.filter (fun p =>
        ¬ (p.2.state = DomainState.terminating ∨
          p.2.state = DomainState.launching))).map (fun p => p.1) :=
    List.map_congr_left (fun a ha => hwf a (List.mem_of_mem_filter ha))
  rw [hmap]
  apply List.filter_congr
  intro q hq
  simp only [decide_eq_decide]
  constructor
  · intro hnotin
    by_contra hbad
    apply hnotin
    exact List.mem_map.mpr ⟨q, List.mem_filter.mpr ⟨hq, by simpa using hbad⟩, rfl⟩
  · intro hgood hin
    obtain ⟨r, hr, hr1⟩ := List.mem_map.mp hin
    have hrf := List.mem_of_mem_filter hr
    have hrq : r = q := List.inj_on_of_nodup_map hnd hrf hq hr1
    subst hrq
    have hbad := (List.mem_filter.mp hr).2
    simp at hbad
    exact hgood.elim hbad.1 hbad.2

/-- Witness for `C6_amended`: cleaning up a fleet of one healthy and one
launching record destroys the healthy one and leaves the launching one. -/
theorem C6_amended_witness :
    (cleanup (fun _ => true) true
        [("wso-aaaaaaaa", dHealthy), ("wso-dddddddd", dLaunching)]).1
      = [("wso-dddddddd", dLaunching)] ∧
    (cleanup (fun _ => true) true
        [("wso-aaaaaaaa", dHealthy), ("wso-dddddddd", dLaunching)]).2.1 = true ∧
    (cleanup (fun _ => true) true
        [("wso-aaaaaaaa", dHealthy), ("wso-dddddddd", dLaunching)]).2.2 = false := by
  have h := C6_amended
    [("wso-aaaaaaaa", dHealthy), ("wso-dddddddd", dLaunching)]
    (by decide) (by decide)
  exact ⟨h.1.trans (by decide), h.2.1, h.2.2⟩

/- ### Claim C7 -/

/-- Claim C7: when the hypervisor destroy call fails inside
`Server._destroy_domain_task`, the error is re-raised and the record is not
removed: it is still present under its name with state `Terminating`, and
every other fleet entry is untouched. -/
theorem C7_destroy_failure (d : Domain) (fleet : Fleet) :
    (destroy_domain_task false d fleet).2 = true ∧
    fleetLookup (destroy_domain_task false d fleet).1 d.domain_name
      = some { d with state := DomainState.terminating } ∧
    ∀ n, ¬ n = d.domain_name →
      fleetLookup (destroy_domain_task false d fleet).1 n
        = fleetLookup fleet n := by
  refine ⟨rfl, ?_, ?_⟩
  · simp [destroy_domain_task, fleetLookup_insert_self]
  · intro n hn
    simp [destroy_domain_task, fleetLookup_insert_ne fleet d.domain_name n _ hn]

/-- Witness for `C7_destroy_failure` on a one-record fleet. -/
theorem C7_destroy_failure_witness :
    (destroy_domain_task false dHealthy [("wso-aaaaaaaa", dHealthy)]).2 = true ∧
    fleetLookup (destroy_domain_task false dHealthy
        [("wso-aaaaaaaa", dHealthy)]).1 dHealthy.domain_name
      = some { dHealthy with state := DomainState.terminating } ∧
    fleetLookup (destroy_domain_task false dHealthy
        [("wso-aaaaaaaa", dHealthy)]).1 "wso-other"
      = fleetLookup [("wso-aaaaaaaa", dHealthy)] "wso-other" :=
  ⟨(C7_destroy_failure dHealthy [("wso-aaaaaaaa", dHealthy)]).1,
    (C7_destroy_failure dHealthy [("wso-aaaaaaaa", dHealthy)]).2.1,
    (C7_destroy_failure dHealthy [("wso-aaaaaaaa", dHealthy)]).2.2
      "wso-other" (by decide)⟩

/- ### Claim C8 -/

/-- Claim C8: `Server.handle_msg` never mutates the fleet — for every
character database, and for every received message (both crashing paths,
the missing-token `IndexError` and the `int()` `ValueError`, included) the
domains mapping after the handler runs is exactly the mapping before, every
record and every field unchanged; the handler writes only the desired-size
variable and the change signal. -/
theorem C8_fleet_frame (u : UnicodeData) (fleet : Fleet) (desired : Nat)
    (msg : String) :
    (handle_msg u fleet desired msg).fleet = fleet := by
  unfold handle_msg
  split_ifs <;> try rfl
  split
  · rfl
  · split_ifs <;> try rfl
    split
    · rfl
    · split_ifs <;> rfl

/- ### Claim C9 -/

/-- Auxiliary: from any record whose success counter is `n` short of the
healthy threshold, `n ≥ 1` consecutive successful probes promote it to
`Healthy` with the failure counter cleared and the success counter
saturated. -/
theorem healthcheck_recover_aux (cfg : Config) :
    ∀ (n : Nat) (d : Domain), 1 ≤ n →
      d.n_success_healthchecks + n = cfg.HEALTHCHECK_HEALTHY_THRESHOLD →
      (healthcheckRun cfg (List.replicate n true) d).state
        = DomainState.healthy ∧
      (healthcheckRun cfg (List.replicate n true) d).n_failed_healthchecks
        = 0 ∧
      (healthcheckRun cfg (List.replicate n true) d).n_success_healthchecks
        = cfg.HEALTHCHECK_HEALTHY_THRESHOLD := by
  intro n
  induction n with
  | zero => omega
  | succ m ih =>
    intro d _ hsum
    rw [List.replicate_succ]
    have hlt : d.n_success_healthchecks < cfg.HEALTHCHECK_HEALTHY_THRESHOLD :=
      by omega
    by_cases hm : m = 0
    · subst hm
      have hT : cfg.HEALTHCHECK_HEALTHY_THRESHOLD
          ≤ d.n_success_healthchecks + 1 := by omega
      simp [healthcheckRun, healthcheckStep, hlt, hT]
      omega
    · have h1 : 1 ≤ m := by omega
      have hstep : healthcheckStep cfg true d
          = { d with n_success_healthchecks := d.n_success_healthchecks + 1 } := by
        have hn : ¬ cfg.HEALTHCHECK_HEALTHY_THRESHOLD
            ≤ d.n_success_healthchecks + 1 := by omega
        simp [healthcheckStep, hlt, hn]
      have hih := ih
        { d with n_success_healthchecks := d.n_success_healthchecks + 1 }
        h1 (by simp; omega)
      simpa [healthcheckRun, hstep] using hih

/-- Claim C9: a record in state `Unhealthy` whose healthcheck task is still
running transitions back to `Healthy`: after
`HEALTHCHECK_HEALTHY_THRESHOLD` successful probes its state is `Healthy`
and `n_failed_healthchecks` is reset to 0 (the success counter starts at 0
because crossing the unhealthy threshold reset it). -/
theorem C9_unhealthy_recovers (cfg : Config) (d : Domain)
    (hstate : d.state = DomainState.unhealthy)
    (hzero : d.n_success_healthchecks = 0)
    (hpos : 1 ≤ cfg.HEALTHCHECK_HEALTHY_THRESHOLD) :
    (healthcheckRun cfg
        (List.replicate cfg.HEALTHCHECK_HEALTHY_THRESHOLD true) d).state
      = DomainState.healthy ∧
    (healthcheckRun cfg
        (List.replicate cfg.HEALTHCHECK_HEALTHY_THRESHOLD true)
        d).n_failed_healthchecks = 0 := by
  have h := healthcheck_recover_aux cfg cfg.HEALTHCHECK_HEALTHY_THRESHOLD d
    hpos (by omega)
  exact ⟨h.1, h.2.1⟩

/-- Witness for `C9_unhealthy_recovers` at the default config and a record
that has just crossed the unhealthy threshold. -/
theorem C9_unhealthy_recovers_witness :
    (healthcheckRun cfgDefault
        (List.replicate cfgDefault.HEALTHCHECK_HEALTHY_THRESHOLD true)
        dUnhealthy).state = DomainState.healthy ∧
    (healthcheckRun cfgDefault
        (List.replicate cfgDefault.HEALTHCHECK_HEALTHY_THRESHOLD true)
        dUnhealthy).n_failed_healthchecks = 0 :=
  C9_unhealthy_recovers cfgDefault dUnhealthy rfl rfl (by decide)

/- ### Claim C10 -/

/-- Claim C10: at construction the server's desired size is the hardcoded
value 2, whatever `MIN_VMS` and `MAX_VMS` are, and the change signal is
already set; the first reconciler wake on the still-empty fleet therefore
creates exactly 2 fresh records and destroys nothing. -/
theorem C10_init_desired_two (cfg : Config) (url iso : String)
    (rng : Nat → Nat) (ids : Nat → String)
    (sample : List Domain → Nat → List Domain) :
    (initServer cfg url).desired = 2 ∧
    (initServer cfg url).signalSet = true ∧
    (respond_wake iso (initServer cfg url).desired (initServer cfg url).domains
        rng ids sample).created.length = 2 ∧
    (respond_wake iso (initServer cfg url).desired (initServer cfg url).domains
        rng ids sample).destroyExcess = [] ∧
    (respond_wake iso (initServer cfg url).desired (initServer cfg url).domains
        rng ids sample).destroyUnhealthy = [] := by
  refine ⟨rfl, rfl, ?_, rfl, rfl⟩
  simp [respond_wake, initServer]

end WSO
